import Mathlib

/-!
# Verification of the fd-mcp-server core behaviours

Shallow embedding of the session/auth/tool core of the `fd-mcp-server`
repository (TypeScript), together with proofs about the embedded
definitions.  The embedding covers:

* `src/server/auth.ts` — the API-key → token exchange with its in-memory
  TTL cache (`exchangeApiKeyForToken`, `TOKEN_CACHE_TTL_MS`);
* `src/server/index.ts` — the Streamable-HTTP session registries and the
  POST/GET/DELETE handler factories;
* `src/server/stdio.ts` — startup authentication and the stdin buffering
  performed before the transport is attached;
* `src/server/tools.ts` — GraphQL argument shaping (`transformArguments`)
  and the tool-handler error path (`createToolHandler`).

Maps that the source keeps as JavaScript objects / `Map`s are embedded as
association lists; JavaScript values reachable by the modelled code are
embedded as the inductive type `JSVal` (numbers as integers — no float
arithmetic is exercised by the modelled paths); time is an integer count
of milliseconds (`Date.now()`); network effects are passed in explicitly
as upstream-response oracles, and each exchange function additionally
reports whether it performed a network call.
-/

namespace FD

/-! ## JavaScript values

`Record<string, unknown>` values are embedded as `JSVal`; objects carry
their fields in insertion order, mirroring JavaScript object literals. -/

inductive JSVal : Type where
  | undef : JSVal
  | null : JSVal
  | bool : Bool → JSVal
  | num : Int → JSVal
  | str : String → JSVal
  | arr : List JSVal → JSVal
  | obj : List (String × JSVal) → JSVal

/-- `typeof v === 'undefined'`. -/
def isUndef : JSVal → Bool
  | .undef => true
  | _ => false

/-- JavaScript truthiness for the values `JSVal` can take
(`undefined`, `null`, `false`, `0` and `""` are falsy). -/
def truthy : JSVal → Bool
  | .undef => false
  | .null => false
  | .bool b => b
  | .num n => n != 0
  | .str s => s != ""
  | .arr _ => true
  | .obj _ => true

/-- Property read `o[k]` on an object: a missing key yields `undefined`,
as in JavaScript. -/
def getField : JSVal → String → JSVal
  | .obj fields, k =>
    match fields.find? (fun p => p.1 = k) with
    | some p => p.2
    | none => .undef
  | _, _ => JSVal.undef

/-- `k in o` for an object embedded as a field list. -/
def hasKey (fields : List (String × JSVal)) (k : String) : Bool :=
  fields.any (fun p => p.1 = k)

/-! ## String-keyed maps

JavaScript objects used as dictionaries (`Record<string, T>`) and the
`Map` of the token cache are both embedded as association lists in
insertion order, with `Map.set` / property-assignment semantics
(replace an existing binding in place, otherwise append) and
`delete obj[k]` as removal. -/

/-- Map/object read: `m.get(k)` resp. `m[k]` (`none` = `undefined`). -/
def regGet {α : Type} (m : List (String × α)) (k : String) : Option α :=
  (m.find? (fun p => p.1 = k)).map Prod.snd

/-- Map/object write: `m.set(k, v)` resp. `m[k] = v`. -/
def regSet {α : Type} : List (String × α) → String → α → List (String × α)
  | [], k, v => [(k, v)]
  | (k', v') :: rest, k, v =>
    if k' = k then (k, v) :: rest else (k', v') :: regSet rest k v

/-- Map/object removal: `m.delete(k)` resp. `delete m[k]`. -/
def regDel {α : Type} (m : List (String × α)) (k : String) : List (String × α) :=
  m.filter (fun p => p.1 ≠ k)

/-- `Object.keys(m)`. -/
def regKeys {α : Type} (m : List (String × α)) : List String :=
  m.map Prod.fst

/-- `(v as string[]).length > 0` as the source applies it after a
truthiness guard: arrays and strings have a `length`; for the other
values the comparison is false (`undefined > 0` is false in JS). -/
def lengthPos : JSVal → Bool
  | .arr xs => 0 < xs.length
  | .str s => 0 < s.length
  | _ => false

end FD

namespace FD

/-! ## `src/server/auth.ts` — token exchange and cache -/

/-- A cached exchange result (`interface CachedToken`). -/
structure CachedToken : Type where
  token : String
  partnerCode : String
  expiresAt : Int
deriving DecidableEq, Repr

/-- The `tokenCache : Map<string, CachedToken>`, embedded as an
association list with `Map.set` replace-or-append semantics. -/
abbrev TokenCache := List (String × CachedToken)

/-- `getTokenCacheSize` (`tokenCache.size`). -/
def getTokenCacheSize (cache : TokenCache) : Nat := cache.length

/-- `TOKEN_CACHE_TTL_MS = 55 * 60 * 1000` (55 minutes). -/
def TOKEN_CACHE_TTL_MS : Int := 55 * 60 * 1000

/-- The upstream response observed by one `fetch` of the
`/mcp/api-key-exchange` endpoint.  `notOk` covers a non-2xx status and a
thrown network error (both make the source return `null` without caching);
`ok` carries the parsed JSON payload.  The payload shape
(`idToken`, `partnerCode`, `expiresIn`) is the endpoint's
`TokenExchangeResponse`; `auth.ts` reads only `idToken` and
`partnerCode`, so `expiresIn` is carried here but ignored, exactly as in
the source.  A falsy (absent or empty) string field is embedded as `""`. -/
inductive ExchangeResp : Type where
  | notOk : ExchangeResp
  | ok : String → String → Int → ExchangeResp
deriving DecidableEq, Repr

/-- Result of one call to `exchangeApiKeyForToken`: the returned value
(`null` embedded as `none`), the cache after the call, and whether a
network call (`fetch`) was performed. -/
structure ExchangeOutcome : Type where
  result : Option (String × String)
  cache : TokenCache
  networkCalled : Bool
deriving DecidableEq, Repr

/-- `exchangeApiKeyForToken` of `src/server/auth.ts`: consult the cache
first (an entry counts only while `expiresAt > Date.now()`); on a miss,
perform the exchange; on success cache the token with
`expiresAt = Date.now() + TOKEN_CACHE_TTL_MS`; on failure return `null`
without touching the cache. -/
def exchangeApiKeyForToken (cache : TokenCache) (now : Int)
    (upstream : ExchangeResp) (apiKey : String) : ExchangeOutcome :=
  match regGet cache apiKey with
  | some cached =>
    if cached.expiresAt > now then
      { result := some (cached.token, cached.partnerCode), cache := cache
        networkCalled := false }
    else
      exchangeFetch cache now upstream apiKey
  | none => exchangeFetch cache now upstream apiKey
where
  /-- The network portion (the `try { fetch ... }` block). -/
  exchangeFetch (cache : TokenCache) (now : Int) (upstream : ExchangeResp)
      (apiKey : String) : ExchangeOutcome :=
    match upstream with
    | .notOk => { result := none, cache := cache, networkCalled := true }
    | .ok idToken partnerCode _expiresIn =>
      if idToken = "" ∨ partnerCode = "" then
        { result := none, cache := cache, networkCalled := true }
      else
        { result := some (idToken, partnerCode)
          cache := regSet cache apiKey
            { token := idToken, partnerCode := partnerCode
              expiresAt := now + TOKEN_CACHE_TTL_MS }
          networkCalled := true }

/-! ### Request authentication (`auth.ts`) -/

/-- The request headers the auth module reads (absent headers are
`none`). -/
structure Headers : Type where
  authorization : Option String
  xApiKey : Option String
deriving DecidableEq, Repr

/-- `extractBearerToken`: take the `Authorization` header, require the
`Bearer ` prefix, and strip it. -/
def extractBearerToken (h : Headers) : Option String :=
  match h.authorization with
  | some a => if a.startsWith "Bearer " then some (a.drop 7) else none
  | none => none

/-- `extractApiKey`: the `X-API-Key` header; a falsy (empty) value is
treated as absent. -/
def extractApiKey (h : Headers) : Option String :=
  match h.xApiKey with
  | some k => if k = "" then none else some k
  | none => none

/-- The `method` field of an `AuthResult`. -/
inductive AuthMethod : Type where
  | bearer : AuthMethod
  | apiKey : AuthMethod
deriving DecidableEq, Repr

/-- `interface AuthResult`. -/
structure AuthResult : Type where
  token : String
  method : AuthMethod
  partnerCode : Option String
deriving DecidableEq, Repr

/-- `interface AuthError`. -/
structure AuthError : Type where
  code : Int
  message : String
deriving DecidableEq, Repr

/-- The union `AuthResult | AuthError`; `isAuthError` corresponds to the
`Except.error` case. -/
abbrev AuthOutcome := Except AuthError AuthResult

/-- `authenticateApiKeyRequest`: require an `X-API-Key` header and run
the exchange; an exchange failure becomes the `Invalid API key` error.
Returns the auth outcome together with the cache after the attempt and
whether a network call was made. -/
def authenticateApiKeyRequest (cache : TokenCache) (now : Int)
    (upstream : ExchangeResp) (h : Headers) :
    AuthOutcome × TokenCache × Bool :=
  match extractApiKey h with
  | none =>
    (.error { code := -32000
              message := "Unauthorized: X-API-Key header required for Partner API" },
      cache, false)
  | some apiKey =>
    let o := exchangeApiKeyForToken cache now upstream apiKey
    match o.result with
    | some tp =>
      (.ok { token := tp.1, method := .apiKey, partnerCode := some tp.2 },
        o.cache, o.networkCalled)
    | none => (.error { code := -32000, message := "Invalid API key" }, o.cache, o.networkCalled)

/-- `authenticateBearerRequest`: pass the bearer token through
unmodified. -/
def authenticateBearerRequest (h : Headers) : AuthOutcome :=
  match extractBearerToken h with
  | none =>
    .error { code := -32000
             message := "Unauthorized: Bearer token required for Manager API" }
  | some t => .ok { token := t, method := .bearer, partnerCode := none }

end FD

namespace FD

/-! ## `src/server/index.ts` — session registries and HTTP handlers

The four module-level registries are embedded as a `Sessions` record of
association lists.  Transport instances are abstracted to identities
(`Nat`): a dispatched request names the identity of the transport whose
`handleRequest` it reached.  The SDK callbacks are embedded at the point
the source runs them: `onsessioninitialized` fires while the initialize
request is handled (so session registration is part of the POST
handler's initialize branch), and `transport.onclose` is the separate
`oncloseCallback` below. -/

/-- The `'partner' | 'manager'` endpoint tag. -/
inductive EndpointType : Type where
  | partner : EndpointType
  | manager : EndpointType
deriving DecidableEq, Repr

/-- The string form used in logs and error messages. -/
def EndpointType.name : EndpointType → String
  | .partner => "partner"
  | .manager => "manager"

/-- How `sessionEndpointTypes[sessionId]` prints inside the template
string when the binding is absent. -/
def endpointName : Option EndpointType → String
  | some e => e.name
  | none => "undefined"

/-- The cross-endpoint error text
`Session belongs to X endpoint, not Y`. -/
def crossEndpointMessage (recorded : Option EndpointType)
    (endpointType : EndpointType) : String :=
  "Session belongs to " ++ endpointName recorded ++ " endpoint, not " ++
    endpointType.name

/-- The four module-level session registries of `index.ts`. -/
structure Sessions : Type where
  transports : List (String × Nat)
  sessionTokens : List (String × String)
  sessionAuthMethods : List (String × AuthMethod)
  sessionEndpointTypes : List (String × EndpointType)
deriving DecidableEq, Repr

/-- An HTTP error/JSON-RPC response (`res.status(s).json({... code, message ...})`). -/
structure HttpResponse : Type where
  status : Nat
  rpcCode : Int
  message : String
deriving DecidableEq, Repr

/-- What a handler did with a request: answered it with an error
response, handed it to a transport's `handleRequest`, or answered
`204 No Content` (successful DELETE). -/
inductive McpOutcome : Type where
  | errorResp : HttpResponse → McpOutcome
  | dispatched : Nat → McpOutcome
  | noContent : McpOutcome
deriving DecidableEq, Repr

/-- `req.headers['mcp-session-id']` followed by the handlers' JavaScript
truthiness test: an absent or empty header counts as no session id. -/
def sidOf : Option String → Option String
  | some s => if s = "" then none else some s
  | none => none

/-- The body of `onsessioninitialized`: register the new session in all
four registries. -/
def registerSession (st : Sessions) (sid : String) (transport : Nat)
    (token : String) (method : AuthMethod) (endpointType : EndpointType) :
    Sessions :=
  { transports := regSet st.transports sid transport
    sessionTokens := regSet st.sessionTokens sid token
    sessionAuthMethods := regSet st.sessionAuthMethods sid method
    sessionEndpointTypes := regSet st.sessionEndpointTypes sid endpointType }

/-- The four `delete` statements run by the close paths. -/
def removeSession (st : Sessions) (sid : String) : Sessions :=
  { transports := regDel st.transports sid
    sessionTokens := regDel st.sessionTokens sid
    sessionAuthMethods := regDel st.sessionAuthMethods sid
    sessionEndpointTypes := regDel st.sessionEndpointTypes sid }

/-- The parts of a POST request the handler inspects: the session-id
header and whether `isInitializeRequest(req.body)` holds. -/
structure PostRequest : Type where
  sessionIdHeader : Option String
  isInitialize : Bool
deriving DecidableEq, Repr

/-- The handler produced by `createMcpPostHandler`, applied to one
request.  `authResult` is what the injected `authenticateFn` returned
for this request; `newSessionId` is the `randomUUID()` the transport's
`sessionIdGenerator` would produce and `newTransport` the identity of
the freshly constructed transport, both used only in the initialize
branch. -/
def createMcpPostHandler (endpointType : EndpointType)
    (authResult : AuthOutcome) (req : PostRequest) (newSessionId : String)
    (newTransport : Nat) (st : Sessions) : McpOutcome × Sessions :=
  match authResult with
  | .error e => (.errorResp { status := 401, rpcCode := e.code, message := e.message }, st)
  | .ok a =>
    match sidOf req.sessionIdHeader with
    | some sessionId =>
      match regGet st.transports sessionId with
      | some transport =>
        if regGet st.sessionEndpointTypes sessionId ≠ some endpointType then
          (.errorResp { status := 400, rpcCode := -32000
                        message := crossEndpointMessage
                          (regGet st.sessionEndpointTypes sessionId) endpointType }, st)
        else
          (.dispatched transport, st)
      | none =>
        (.errorResp { status := 400, rpcCode := -32000
                      message := "Invalid or expired session" }, st)
    | none =>
      if req.isInitialize then
        (.dispatched newTransport,
          registerSession st newSessionId newTransport a.token a.method endpointType)
      else
        (.errorResp { status := 400, rpcCode := -32600
                      message := "Invalid request: session ID required or initialize first" }, st)

/-- The handler produced by `createMcpGetHandler` (SSE), applied to one
request; it touches no state. -/
def createMcpGetHandler (endpointType : EndpointType)
    (sessionIdHeader : Option String) (st : Sessions) : McpOutcome :=
  match sidOf sessionIdHeader with
  | none =>
    .errorResp { status := 400, rpcCode := -32000
                 message := "Invalid or missing session ID" }
  | some sessionId =>
    match regGet st.transports sessionId with
    | none =>
      .errorResp { status := 400, rpcCode := -32000
                   message := "Invalid or missing session ID" }
    | some transport =>
      if regGet st.sessionEndpointTypes sessionId ≠ some endpointType then
        .errorResp { status := 400, rpcCode := -32000
                     message := crossEndpointMessage
                       (regGet st.sessionEndpointTypes sessionId) endpointType }
      else
        .dispatched transport

/-- The handler produced by `createMcpDeleteHandler`, applied to one
request.  `closeOk` records whether `transport.close()` returned
normally; when it throws, the catch block answers 500 and the deletes
are skipped. -/
def createMcpDeleteHandler (endpointType : EndpointType)
    (sessionIdHeader : Option String) (closeOk : Bool) (st : Sessions) :
    McpOutcome × Sessions :=
  match sidOf sessionIdHeader with
  | none =>
    (.errorResp { status := 404, rpcCode := -32000, message := "Session not found" }, st)
  | some sessionId =>
    match regGet st.transports sessionId with
    | none =>
      (.errorResp { status := 404, rpcCode := -32000, message := "Session not found" }, st)
    | some _transport =>
      if regGet st.sessionEndpointTypes sessionId ≠ some endpointType then
        (.errorResp { status := 400, rpcCode := -32000
                      message := crossEndpointMessage
                        (regGet st.sessionEndpointTypes sessionId) endpointType }, st)
      else if closeOk then
        (.noContent, removeSession st sessionId)
      else
        (.errorResp { status := 500, rpcCode := -32603, message := "Error closing session" }, st)

/-- The body of `transport.onclose`: when the transport knows its
session id, delete it from all four registries. -/
def oncloseCallback (sessionId : Option String) (st : Sessions) : Sessions :=
  match sidOf sessionId with
  | some sid => removeSession st sid
  | none => st

/-- The SIGINT handler's cleanup loop over `Object.entries(transports)`:
close each transport and delete its session; when `close()` throws the
deletes for that session are skipped (logged, not retried). -/
def sigintCleanup (closeOk : String → Bool) (st : Sessions) : Sessions :=
  (regKeys st.transports).foldl
    (fun s sid => if closeOk sid then removeSession s sid else s) st

end FD


namespace FD

/-! ## `src/server/stdio.ts` — startup authentication and stdin buffering

The OAuth variant of the stdio entry point: parse the
`clientId:clientSecret` API key, exchange it via the `client_credentials`
flow, and only then attach the protocol transport, replaying any stdin
chunks buffered in the meantime.  The event sequence of one run is
embedded as the lists of chunks arriving before authentication finished
(`preAuthChunks`) and after the transport was attached
(`postAttachChunks`); the upstream token endpoint's behaviour is the
oracle `upstream`. -/

/-- `interface TokenExchangeResult`. -/
structure TokenExchangeResult : Type where
  token : String
  partnerCode : String
  expiresIn : Int
deriving DecidableEq, Repr

/-- `apiKey.indexOf(':')` split into `clientId` / `clientSecret`, with
the two falsy-emptiness rejections of the source. -/
def parseApiKey (apiKey : String) : Option (String × String) :=
  let cs := apiKey.toList
  if ':' ∈ cs then
    let clientId := cs.takeWhile (fun c => c ≠ ':')
    let clientSecret := (cs.dropWhile (fun c => c ≠ ':')).drop 1
    if clientId.isEmpty ∨ clientSecret.isEmpty then none
    else some (String.mk clientId, String.mk clientSecret)
  else none

/-- `clientId.match(/^partner_([^_]+)_/)`: the partner code is the first
maximal non-underscore run after the `partner_` prefix, provided it is
non-empty and followed by an underscore; otherwise `'unknown'`. -/
def partnerCodeOf (clientId : String) : String :=
  let cs := clientId.toList
  if cs.take 8 = "partner_".toList then
    let rest := cs.drop 8
    let code := rest.takeWhile (fun c => c ≠ '_')
    let after := rest.dropWhile (fun c => c ≠ '_')
    if code.isEmpty ∨ after.isEmpty then "unknown" else String.mk code
  else "unknown"

/-- One observation of the OAuth token endpoint: `notOk` covers a
non-2xx response and a thrown network error; `ok` carries the parsed
`access_token` (a falsy/missing one embedded as `""`) and
`expires_in`. -/
inductive OAuthResp : Type where
  | notOk : OAuthResp
  | ok : String → Int → OAuthResp
deriving DecidableEq, Repr

/-- `exchangeApiKeyForToken` of `src/server/stdio.ts` (OAuth
`client_credentials` variant). -/
def stdioExchangeApiKeyForToken (apiKey : String) (upstream : OAuthResp) :
    Option TokenExchangeResult :=
  match parseApiKey apiKey with
  | none => none
  | some cs =>
    match upstream with
    | .notOk => none
    | .ok accessToken expiresIn =>
      if accessToken = "" then none
      else
        some { token := accessToken, partnerCode := partnerCodeOf cs.1
               expiresIn := expiresIn }

/-- The observable outcome of one run of `main()`: either the process
called `process.exit` with the given status before attaching a
transport (no chunk delivered), or the transport was attached and
`delivered` lists, in order, every chunk fed into its input handling. -/
structure StdioRun : Type where
  exitCode : Option Nat
  delivered : List String
deriving DecidableEq, Repr

/-- `main()` of `src/server/stdio.ts`: require `FD_API_KEY` (a falsy
empty value counts as absent), buffer stdin while the exchange runs,
exit 1 on a failed exchange, otherwise attach the transport, replay the
buffer into `_ondata` in order, and from then on deliver arriving chunks
directly. -/
def stdioMain (fdApiKey : Option String) (upstream : OAuthResp)
    (preAuthChunks postAttachChunks : List String) : StdioRun :=
  match fdApiKey with
  | none => { exitCode := some 1, delivered := [] }
  | some apiKey =>
    if apiKey = "" then { exitCode := some 1, delivered := [] }
    else
      let stdinBuffer := preAuthChunks.foldl (fun buf chunk => buf ++ [chunk]) []
      match stdioExchangeApiKeyForToken apiKey upstream with
      | none => { exitCode := some 1, delivered := [] }
      | some _tokenResult =>
        { exitCode := none
          delivered :=
            stdinBuffer.foldl (fun delivered chunk => delivered ++ [chunk]) []
              ++ postAttachChunks }

end FD

namespace FD

/-! ## `src/server/tools.ts` — argument shaping and the tool handler

Tool arguments (`Record<string, unknown>`) are embedded as `JSVal`
object field lists; `argGet` is a property read on them. -/

/-- `args.k` on the arguments record. -/
def argGet (args : List (String × JSVal)) (k : String) : JSVal :=
  match regGet args k with
  | some v => v
  | none => JSVal.undef

/-- The `queriesNeedingWhereWrapper` list. -/
def queriesNeedingWhereWrapper : List String :=
  ["list_organizations", "get_organization", "list_individuals",
   "list_benefits_programs", "list_benefit_templates"]

/-- The `mutationsNeedingInputWrapper` list. -/
def mutationsNeedingInputWrapper : List String :=
  ["ping", "create_organization", "create_individual", "update_individual",
   "verify_individual", "enroll_individual_in_benefit",
   "create_benefits_program", "create_benefit"]

/-- `Math.round((v as number) * 100)` wrapped as a USD money object.
Numbers are embedded as integers, on which the rounding is exact; the
amount fields are number-typed in the tool schemas, so non-numeric
values do not reach this conversion. -/
def dollarsToCents (v : JSVal) : JSVal :=
  match v with
  | .num n => .num (n * 100)
  | other => other

/-- `transformQueryArgs`: build the `where`/`after`/`first` variables for
the Partner API list/get queries. -/
def transformQueryArgs (toolName : String) (args : List (String × JSVal)) :
    JSVal :=
  if toolName = "list_organizations" then
    .obj
      ((if truthy (argGet args "ids") && lengthPos (argGet args "ids") then
          [("where", JSVal.obj [("ids", argGet args "ids")])]
        else []) ++
       (if truthy (argGet args "after") then [("after", argGet args "after")] else []) ++
       (if truthy (argGet args "first") then [("first", argGet args "first")] else []))
  else if toolName = "get_organization" then
    .obj [("where", JSVal.obj [("id", argGet args "id")])]
  else if toolName = "list_individuals" then
    let whereFields :=
      (if truthy (argGet args "ids") && lengthPos (argGet args "ids") then
        [("ids", argGet args "ids")] else []) ++
      (if truthy (argGet args "organizationIds") && lengthPos (argGet args "organizationIds") then
        [("organizationIds", argGet args "organizationIds")] else []) ++
      (if truthy (argGet args "benefitIds") && lengthPos (argGet args "benefitIds") then
        [("benefitIds", argGet args "benefitIds")] else []) ++
      (if truthy (argGet args "benefitsProgramIds") && lengthPos (argGet args "benefitsProgramIds") then
        [("benefitsProgramIds", argGet args "benefitsProgramIds")] else []) ++
      (if truthy (argGet args "statuses") && lengthPos (argGet args "statuses") then
        [("statuses", argGet args "statuses")] else [])
    .obj
      ((if 0 < whereFields.length then [("where", JSVal.obj whereFields)] else []) ++
       (if truthy (argGet args "after") then [("after", argGet args "after")] else []) ++
       (if truthy (argGet args "first") then [("first", argGet args "first")] else []))
  else if toolName = "list_benefits_programs" then
    .obj
      ((if truthy (argGet args "organizationIds") && lengthPos (argGet args "organizationIds") then
          [("where", JSVal.obj [("organizationIds", argGet args "organizationIds")])]
        else []) ++
       (if truthy (argGet args "after") then [("after", argGet args "after")] else []) ++
       (if truthy (argGet args "first") then [("first", argGet args "first")] else []))
  else if toolName = "list_benefit_templates" then
    .obj
      ((if truthy (argGet args "after") then [("after", argGet args "after")] else []) ++
       (if truthy (argGet args "first") then [("first", argGet args "first")] else []))
  else .obj args

/-- `transformArguments`: dispatch queries to `transformQueryArgs`, wrap
the listed mutations in their nested `input` shapes, and pass everything
else through unchanged.  (`'ping'` is in the wrapper list but has no
switch case, so it falls through to the `default` and is returned
unchanged, exactly as in the source.) -/
def transformArguments (toolName : String) (args : List (String × JSVal)) :
    JSVal :=
  if toolName ∈ queriesNeedingWhereWrapper then
    transformQueryArgs toolName args
  else if toolName ∉ mutationsNeedingInputWrapper then
    .obj args
  else if toolName = "create_organization" then
    .obj [("input", JSVal.obj [("name", argGet args "name")])]
  else if toolName = "create_individual" then
    let input :=
      [("name", JSVal.obj
        ([("firstName", argGet args "firstName"),
          ("lastName", argGet args "lastName")] ++
         (if truthy (argGet args "middleName") then
           [("middleName", argGet args "middleName")] else [])))] ++
      (if truthy (argGet args "email") then [("email", argGet args "email")] else []) ++
      (if truthy (argGet args "phoneNumber") then
        [("phoneNumber", argGet args "phoneNumber")] else []) ++
      (if truthy (argGet args "dateOfBirth") then
        [("dateOfBirth", argGet args "dateOfBirth")] else []) ++
      (if truthy (argGet args "tin") then [("tin", argGet args "tin")] else []) ++
      (if truthy (argGet args "language") then
        [("language", argGet args "language")] else []) ++
      (if truthy (argGet args "externalUserId") then
        [("externalUserId", argGet args "externalUserId")] else []) ++
      (if truthy (argGet args "addressLine1") || truthy (argGet args "city") ||
          truthy (argGet args "state") || truthy (argGet args "zip") then
        [("address", JSVal.obj
          ([("addressLine1", argGet args "addressLine1")] ++
           (if truthy (argGet args "addressLine2") then
             [("addressLine2", argGet args "addressLine2")] else []) ++
           [("city", argGet args "city"),
            ("state", argGet args "state"),
            ("zip", argGet args "zip"),
            ("country",
              if truthy (argGet args "country") then argGet args "country"
              else .str "US")]))]
       else [])
    .obj [("input", JSVal.obj input)]
  else if toolName = "update_individual" then
    let input :=
      [("id", argGet args "id")] ++
      (if truthy (argGet args "firstName") || truthy (argGet args "lastName") ||
          truthy (argGet args "middleName") then
        [("name", JSVal.obj
          ((if truthy (argGet args "firstName") then
             [("firstName", argGet args "firstName")] else []) ++
           (if truthy (argGet args "lastName") then
             [("lastName", argGet args "lastName")] else []) ++
           (if truthy (argGet args "middleName") then
             [("middleName", argGet args "middleName")] else [])))]
       else []) ++
      (if truthy (argGet args "email") then [("email", argGet args "email")] else []) ++
      (if truthy (argGet args "phoneNumber") then
        [("phoneNumber", argGet args "phoneNumber")] else []) ++
      (if truthy (argGet args "dateOfBirth") then
        [("dateOfBirth", argGet args "dateOfBirth")] else []) ++
      (if truthy (argGet args "tin") then [("tin", argGet args "tin")] else []) ++
      (if truthy (argGet args "language") then
        [("language", argGet args "language")] else []) ++
      (if truthy (argGet args "addressLine1") || truthy (argGet args "city") ||
          truthy (argGet args "state") || truthy (argGet args "zip") then
        [("address", JSVal.obj
          ((if truthy (argGet args "addressLine1") then
             [("addressLine1", argGet args "addressLine1")] else []) ++
           (if truthy (argGet args "addressLine2") then
             [("addressLine2", argGet args "addressLine2")] else []) ++
           (if truthy (argGet args "city") then [("city", argGet args "city")] else []) ++
           (if truthy (argGet args "state") then [("state", argGet args "state")] else []) ++
           (if truthy (argGet args "zip") then [("zip", argGet args "zip")] else []) ++
           (if truthy (argGet args "country") then
             [("country", argGet args "country")] else [])))]
       else [])
    .obj [("input", JSVal.obj input)]
  else if toolName = "verify_individual" then
    .obj [("input", JSVal.obj
      ([("individualId", argGet args "individualId")] ++
       (if truthy (argGet args "idempotencyKey") then
         [("idempotencyKey", argGet args "idempotencyKey")] else [])))]
  else if toolName = "enroll_individual_in_benefit" then
    let input :=
      [("benefitId", argGet args "benefitId"),
       ("individualId", argGet args "individualId")] ++
      (if truthy (argGet args "verificationId") then
        [("verificationId", argGet args "verificationId")] else []) ++
      (if truthy (argGet args "startDate") then
        [("startDate", argGet args "startDate")] else []) ++
      (if truthy (argGet args "endDate") then
        [("endDate", argGet args "endDate")] else []) ++
      (if !isUndef (argGet args "employeeInitialContributionAmount") then
        [("employeeInitialContributionAmount", JSVal.obj
          [("amount", dollarsToCents (argGet args "employeeInitialContributionAmount")),
           ("currency", JSVal.str "USD")])] else []) ++
      (if !isUndef (argGet args "employerInitialContributionAmount") then
        [("employerInitialContributionAmount", JSVal.obj
          [("amount", dollarsToCents (argGet args "employerInitialContributionAmount")),
           ("currency", JSVal.str "USD")])] else []) ++
      (if !isUndef (argGet args "employeeRecurringContributionAmount") then
        [("employeeRecurringContributionAmount", JSVal.obj
          [("amount", dollarsToCents (argGet args "employeeRecurringContributionAmount")),
           ("currency", JSVal.str "USD")])] else []) ++
      (if !isUndef (argGet args "employerRecurringContributionAmount") then
        [("employerRecurringContributionAmount", JSVal.obj
          [("amount", dollarsToCents (argGet args "employerRecurringContributionAmount")),
           ("currency", JSVal.str "USD")])] else [])
    .obj [("input", JSVal.obj input)]
  else if toolName = "create_benefits_program" then
    .obj [("input", JSVal.obj
      [("organizationId", argGet args "organizationId"),
       ("name", argGet args "name")])]
  else if toolName = "create_benefit" then
    .obj [("input", JSVal.obj
      ([("benefitsProgramId", argGet args "benefitsProgramId"),
        ("templateId", argGet args "templateId"),
        ("name", argGet args "name"),
        ("startDate", argGet args "startDate")] ++
       (if truthy (argGet args "endDate") then
         [("endDate", argGet args "endDate")] else [])))]
  else .obj args

/-! ### JSON serialization of the GraphQL variables

The shaped variables are sent as `JSON.stringify({ query, variables })`;
`JSON.stringify` omits object properties whose value is `undefined` and
encodes `undefined` array elements as `null`.  `stripUndef` computes the
value shape that is actually sent. -/

mutual

/-- The value `JSON.stringify` actually encodes (`undefined`-valued
object properties dropped, `undefined` array elements as `null`). -/
def stripUndef : JSVal → JSVal
  | .arr xs => .arr (stripUndefArr xs)
  | .obj fields => .obj (stripUndefObj fields)
  | v => v

/-- `stripUndef` over array elements. -/
def stripUndefArr : List JSVal → List JSVal
  | [] => []
  | x :: xs =>
    (if isUndef x then JSVal.null else stripUndef x) :: stripUndefArr xs

/-- `stripUndef` over object fields. -/
def stripUndefObj : List (String × JSVal) → List (String × JSVal)
  | [] => []
  | (k, v) :: fields =>
    if isUndef v then stripUndefObj fields
    else (k, stripUndef v) :: stripUndefObj fields

end

/-! ### `extractResult` and `createToolHandler` -/

/-- One step `part in result` + read, for the truthy objects the
dot-path walk can descend into (object fields; numeric array indices). -/
def extractStep : JSVal → String → Option JSVal
  | .obj fields, part =>
    if hasKey fields part then some (getField (.obj fields) part) else none
  | .arr xs, part =>
    match part.toNat? with
    | some i => if h : i < xs.length then some (xs.get ⟨i, h⟩) else none
    | none => none
  | _, _ => none

/-- The loop of `extractResult`: descend one path part at a time;
any failing step yields `undefined`. -/
def extractGo : List String → JSVal → JSVal
  | [], r => r
  | p :: ps, r =>
    match extractStep r p with
    | some v => extractGo ps v
    | none => JSVal.undef

/-- `extractResult(data, path)`: walk `path.split('.')` through the
response data. -/
def extractResult (d : JSVal) (path : String) : JSVal :=
  extractGo (path.splitOn ".") d

/-- The parsed body of an upstream GraphQL response; `errors` carries
the `message` of each entry of the `errors` array when that array is
present. -/
structure GraphQLResponse : Type where
  data : Option JSVal
  errors : Option (List String)

/-- The `text` of the single content block of a tool result: either a
literal string built by the source, or `JSON.stringify(v, null, 2)` of
an extracted value (the serialization itself is not modelled). -/
inductive ToolText : Type where
  | plain : String → ToolText
  | jsonOf : JSVal → ToolText

/-- The value a tool handler returns to the MCP SDK (one text content
block plus the optional `isError` flag, `false` when absent). -/
structure ToolResult : Type where
  content : ToolText
  isError : Bool

/-- The handler built by `createToolHandler`, applied to one invocation.
`outcome` is what the `try` block observed up to the GraphQL exchange:
`.error m` is a thrown exception with message `m` (caught and folded
into an error result), `.ok r` the parsed upstream response.  A response
whose `errors` array is non-empty becomes a normal result flagged
`isError`; otherwise the result is extracted along `resultPath` (or
`null` when `data` is falsy) and serialized. -/
def createToolHandler (resultPath : String)
    (outcome : Except String GraphQLResponse) : ToolResult :=
  match outcome with
  | .error errMsg => { content := .plain ("Error: " ++ errMsg), isError := true }
  | .ok response =>
    match response.errors with
    | some (e :: _) => { content := .plain ("Error: " ++ e), isError := true }
    | _ =>
      let result :=
        match response.data with
        | some d => if truthy d then extractResult d resultPath else JSVal.null
        | none => JSVal.null
      { content := .jsonOf result, isError := false }

end FD

namespace FD

/-! ## Derived predicates used by the statements -/

/-- `k in v` for a `JSVal` that may or may not be an object. -/
def objHas : JSVal → String → Bool
  | .obj fields, k => hasKey fields k
  | _, _ => false

/-- The four session registries hold exactly the same session ids (key
lists agree, in registration order). -/
def Sessions.Aligned (st : Sessions) : Prop :=
  regKeys st.sessionTokens = regKeys st.transports ∧
  regKeys st.sessionAuthMethods = regKeys st.transports ∧
  regKeys st.sessionEndpointTypes = regKeys st.transports

end FD

namespace FD

/-! ## Map lemmas -/

theorem regGet_regSet_self {α : Type} (m : List (String × α)) (k : String)
    (v : α) : regGet (regSet m k v) k = some v := by
  induction m with
  | nil => simp [regSet, regGet, List.find?]
  | cons p rest ih =>
    obtain ⟨k', v'⟩ := p
    by_cases hk : k' = k
    · subst hk; simp [regSet, regGet, List.find?]
    · simp [regSet, hk, regGet, List.find?] at ih ⊢
      simpa [hk] using ih

theorem regGet_regDel_self {α : Type} (m : List (String × α)) (k : String) :
    regGet (regDel m k) k = none := by
  induction m with
  | nil => simp [regDel, regGet, List.find?]
  | cons p rest ih =>
    obtain ⟨k', v'⟩ := p
    by_cases hk : k' = k
    · subst hk; simp [regDel, regGet]
    · simp [regDel, regGet, List.find?, hk]

theorem regKeys_cons {α : Type} (k : String) (v : α)
    (rest : List (String × α)) :
    regKeys ((k, v) :: rest) = k :: regKeys rest := rfl

theorem regKeys_regSet {α : Type} (m : List (String × α)) (k : String)
    (v : α) :
    regKeys (regSet m k v) =
      if k ∈ regKeys m then regKeys m else regKeys m ++ [k] := by
  induction m with
  | nil => simp [regSet, regKeys]
  | cons p rest ih =>
    obtain ⟨k', v'⟩ := p
    by_cases hk : k' = k
    · subst hk; simp [regSet, regKeys_cons]
    · have hk' : ¬ k = k' := fun h => hk h.symm
      by_cases hmem : k ∈ regKeys rest
      · simp [regSet, hk, regKeys_cons, ih, hmem, hk']
      · simp [regSet, hk, regKeys_cons, ih, hmem, hk']

theorem regKeys_regDel {α : Type} (m : List (String × α)) (k : String) :
    regKeys (regDel m k) = (regKeys m).filter (fun x => x ≠ k) := by
  induction m with
  | nil => simp [regDel, regKeys]
  | cons p rest ih =>
    obtain ⟨k', v'⟩ := p
    by_cases hk : k' = k
    · subst hk
      simpa [regDel, regKeys_cons] using ih
    · have : regDel ((k', v') :: rest) k = (k', v') :: regDel rest k := by
        simp [regDel, hk]
      simp [this, regKeys_cons, ih, hk]

end FD

namespace FD

theorem aligned_registerSession (st : Sessions) (sid : String)
    (transport : Nat) (token : String) (method : AuthMethod)
    (endpointType : EndpointType) (h : st.Aligned) :
    (registerSession st sid transport token method endpointType).Aligned := by
  obtain ⟨h1, h2, h3⟩ := h
  refine ⟨?_, ?_, ?_⟩ <;>
    simp [registerSession, regKeys_regSet, h1, h2, h3]

theorem aligned_removeSession (st : Sessions) (sid : String)
    (h : st.Aligned) : (removeSession st sid).Aligned := by
  obtain ⟨h1, h2, h3⟩ := h
  refine ⟨?_, ?_, ?_⟩ <;>
    simp [removeSession, regKeys_regDel, h1, h2, h3]

theorem aligned_foldl_remove (l : List String) (closeOk : String → Bool)
    (st : Sessions) (h : st.Aligned) :
    (l.foldl (fun s sid => if closeOk sid then removeSession s sid else s)
      st).Aligned := by
  induction l generalizing st with
  | nil => exact h
  | cons x xs ih =>
    simp only [List.foldl_cons]
    by_cases hx : closeOk x
    · simp only [hx, if_true]
      exact ih _ (aligned_removeSession st x h)
    · simp only [hx, if_false]
      exact ih _ h

end FD

namespace FD

/-! ## Further supporting lemmas -/

theorem exchange_cache_miss (cache : TokenCache) (now : Int)
    (upstream : ExchangeResp) (apiKey : String)
    (hmiss : ∀ c, regGet cache apiKey = some c → ¬ c.expiresAt > now) :
    exchangeApiKeyForToken cache now upstream apiKey =
      exchangeApiKeyForToken.exchangeFetch cache now upstream apiKey := by
  unfold exchangeApiKeyForToken
  cases hc : regGet cache apiKey with
  | none => rfl
  | some c => simp [hmiss c hc]

theorem exchangeFetch_success (cache : TokenCache) (now life : Int)
    (apiKey idToken partnerCode : String)
    (htok : idToken ≠ "") (hpc : partnerCode ≠ "") :
    exchangeApiKeyForToken.exchangeFetch cache now (.ok idToken partnerCode life)
      apiKey =
      { result := some (idToken, partnerCode)
        cache := regSet cache apiKey
          { token := idToken, partnerCode := partnerCode
            expiresAt := now + TOKEN_CACHE_TTL_MS }
        networkCalled := true } := by
  unfold exchangeApiKeyForToken.exchangeFetch
  simp [htok, hpc]

theorem exchangeFetch_networkCalled (cache : TokenCache) (now : Int)
    (upstream : ExchangeResp) (apiKey : String) :
    (exchangeApiKeyForToken.exchangeFetch cache now upstream apiKey).networkCalled
      = true := by
  unfold exchangeApiKeyForToken.exchangeFetch
  cases upstream with
  | notOk => rfl
  | ok t p l => dsimp only; split <;> rfl

theorem foldl_snoc_eq {α : Type} (l acc : List α) :
    l.foldl (fun b c => b ++ [c]) acc = acc ++ l := by
  induction l generalizing acc with
  | nil => simp
  | cons x xs ih => simp [ih]

end FD

namespace FD

/-! ## The claims -/

/-- **C2.** Two authentication attempts with the same credential within
the cache TTL perform at most one upstream exchange call: the first
attempt (no usable cache entry) performs the single network call and
returns the exchanged token; a second attempt before the entry's
`expiresAt` returns the cached token with no network call and leaves the
cache unchanged; an attempt at or after `expiresAt` performs a new
exchange; and a failed exchange returns `null` with the cache exactly as
before. -/
theorem token_cache_at_most_one_exchange
    (cache : TokenCache) (t0 t1 t2 life : Int)
    (apiKey idToken partnerCode : String) (up2 up3 : ExchangeResp)
    (hmiss : ∀ c, regGet cache apiKey = some c → ¬ c.expiresAt > t0)
    (htok : idToken ≠ "") (hpc : partnerCode ≠ "")
    (h1 : t1 < t0 + TOKEN_CACHE_TTL_MS)
    (h2 : t0 + TOKEN_CACHE_TTL_MS ≤ t2) :
    (exchangeApiKeyForToken cache t0 (.ok idToken partnerCode life) apiKey).networkCalled
      = true ∧
    (exchangeApiKeyForToken cache t0 (.ok idToken partnerCode life) apiKey).result
      = some (idToken, partnerCode) ∧
    exchangeApiKeyForToken
        (exchangeApiKeyForToken cache t0 (.ok idToken partnerCode life) apiKey).cache
        t1 up2 apiKey =
      { result := some (idToken, partnerCode)
        cache :=
          (exchangeApiKeyForToken cache t0 (.ok idToken partnerCode life) apiKey).cache
        networkCalled := false } ∧
    (exchangeApiKeyForToken
        (exchangeApiKeyForToken cache t0 (.ok idToken partnerCode life) apiKey).cache
        t2 up3 apiKey).networkCalled = true ∧
    exchangeApiKeyForToken cache t0 .notOk apiKey =
      { result := none, cache := cache, networkCalled := true } := by
  have hstep :
      exchangeApiKeyForToken cache t0 (.ok idToken partnerCode life) apiKey =
        { result := some (idToken, partnerCode)
          cache := regSet cache apiKey
            { token := idToken, partnerCode := partnerCode
              expiresAt := t0 + TOKEN_CACHE_TTL_MS }
          networkCalled := true } := by
    rw [exchange_cache_miss cache t0 _ apiKey hmiss,
      exchangeFetch_success cache t0 life apiKey idToken partnerCode htok hpc]
  refine ⟨by rw [hstep], by rw [hstep], ?_, ?_, ?_⟩
  · rw [hstep]
    dsimp only
    unfold exchangeApiKeyForToken
    rw [regGet_regSet_self]
    simp [h1]
  · rw [hstep]
    dsimp only
    unfold exchangeApiKeyForToken
    rw [regGet_regSet_self]
    have hn : ¬ ((t0 + TOKEN_CACHE_TTL_MS) > t2) := by omega
    simp [hn, exchangeFetch_networkCalled]
  · rw [exchange_cache_miss cache t0 _ apiKey hmiss]
    rfl

/-- **C2 witness.** The cache scenario of `token_cache_at_most_one_exchange`
at a concrete credential and concrete times. -/
theorem token_cache_at_most_one_exchange_witness :
    (exchangeApiKeyForToken [] 0 (.ok "tok" "pc" 3600) "key").networkCalled
      = true ∧
    (exchangeApiKeyForToken [] 0 (.ok "tok" "pc" 3600) "key").result
      = some ("tok", "pc") ∧
    exchangeApiKeyForToken
        (exchangeApiKeyForToken [] 0 (.ok "tok" "pc" 3600) "key").cache
        1 .notOk "key" =
      { result := some ("tok", "pc")
        cache := (exchangeApiKeyForToken [] 0 (.ok "tok" "pc" 3600) "key").cache
        networkCalled := false } ∧
    (exchangeApiKeyForToken
        (exchangeApiKeyForToken [] 0 (.ok "tok" "pc" 3600) "key").cache
        3300000 .notOk "key").networkCalled = true ∧
    exchangeApiKeyForToken [] 0 .notOk "key" =
      { result := none, cache := [], networkCalled := true } :=
  token_cache_at_most_one_exchange [] 0 1 3300000 3600 "key" "tok" "pc"
    .notOk .notOk
    (fun c hc => by simp [regGet] at hc)
    (by decide) (by decide) (by decide) (by decide)

/-- **C3 counterexample.** The claim says the cached expiry is
`min(upstream lifetime − margin, ~55 min)`; but with an upstream-declared
lifetime of 60 seconds the code still caches
`expiresAt = Date.now() + 3 300 000 ms` (55 minutes), which exceeds the
declared lifetime — so no `min` with the upstream lifetime is taken for
any non-negative margin. -/
theorem token_cache_expiry_not_min_of_upstream_lifetime :
    exchangeApiKeyForToken [] 0 (.ok "tok" "pc" 60) "key" =
      { result := some ("tok", "pc")
        cache :=
          [("key", { token := "tok", partnerCode := "pc", expiresAt := 3300000 })]
        networkCalled := true } ∧
    ¬ ((3300000 : Int) ≤ 60 * 1000) := by
  constructor
  · rfl
  · decide

/-- **C3 (amended).** On a successful exchange the token is cached keyed
by the original credential with expiry exactly
`Date.now() + TOKEN_CACHE_TTL_MS` where `TOKEN_CACHE_TTL_MS` is the fixed
55 minutes; the upstream-declared lifetime carried in the response is
ignored. -/
theorem token_cached_with_fixed_55min_expiry
    (cache : TokenCache) (now life : Int) (apiKey idToken partnerCode : String)
    (hmiss : ∀ c, regGet cache apiKey = some c → ¬ c.expiresAt > now)
    (htok : idToken ≠ "") (hpc : partnerCode ≠ "") :
    exchangeApiKeyForToken cache now (.ok idToken partnerCode life) apiKey =
      { result := some (idToken, partnerCode)
        cache := regSet cache apiKey
          { token := idToken, partnerCode := partnerCode
            expiresAt := now + TOKEN_CACHE_TTL_MS }
        networkCalled := true } ∧
    TOKEN_CACHE_TTL_MS = 55 * 60 * 1000 := by
  refine ⟨?_, rfl⟩
  rw [exchange_cache_miss cache now _ apiKey hmiss,
    exchangeFetch_success cache now life apiKey idToken partnerCode htok hpc]

/-- **C3 witness.** The amended expiry law at a concrete exchange. -/
theorem token_cached_with_fixed_55min_expiry_witness :
    exchangeApiKeyForToken [] 7 (.ok "tok" "pc" 60) "key" =
      { result := some ("tok", "pc")
        cache := regSet [] "key"
          { token := "tok", partnerCode := "pc"
            expiresAt := 7 + TOKEN_CACHE_TTL_MS }
        networkCalled := true } ∧
    TOKEN_CACHE_TTL_MS = 55 * 60 * 1000 :=
  token_cached_with_fixed_55min_expiry [] 7 60 "key" "tok" "pc"
    (fun c hc => by simp [regGet] at hc) (by decide) (by decide)

end FD

namespace FD

/-- **C1 counterexample.** A follow-up POST that presents a registered
session's id *is* subjected to a fresh credential check: when the
injected authentication fails, the handler answers 401 and never reaches
the stored transport, refuting "the follow-up request is not subjected
to a fresh credential check". -/
theorem post_followup_with_bad_credentials_rejected :
    createMcpPostHandler .partner
      (.error { code := -32000, message := "Invalid API key" })
      { sessionIdHeader := some "s1", isInitialize := false } "fresh" 99
      { transports := [("s1", 7)], sessionTokens := [("s1", "tokInit")]
        sessionAuthMethods := [("s1", .apiKey)]
        sessionEndpointTypes := [("s1", .partner)] } =
      (.errorResp { status := 401, rpcCode := -32000, message := "Invalid API key" },
        { transports := [("s1", 7)], sessionTokens := [("s1", "tokInit")]
          sessionAuthMethods := [("s1", .apiKey)]
          sessionEndpointTypes := [("s1", .partner)] }) := by
  rfl

/-- **C1 (amended).** A follow-up POST presenting a registered session's
id on the same endpoint type is dispatched to the stored transport
instance and leaves every registry unchanged — in particular the token
captured at initialization stays bound to the session and the follow-up
request's freshly authenticated token is not stored.  However, every
POST request is still authenticated before the session lookup: with a
failing credential the handler answers 401 (the auth error) and the
request is not dispatched. -/
theorem post_followup_reuses_transport_and_bound_token
    (endpointType : EndpointType) (a : AuthResult) (e : AuthError)
    (req : PostRequest) (newSessionId : String) (newTransport transport : Nat)
    (st : Sessions) (sid : String)
    (hsid : sidOf req.sessionIdHeader = some sid)
    (ht : regGet st.transports sid = some transport)
    (he : regGet st.sessionEndpointTypes sid = some endpointType) :
    createMcpPostHandler endpointType (.ok a) req newSessionId newTransport st =
      (.dispatched transport, st) ∧
    createMcpPostHandler endpointType (.error e) req newSessionId newTransport st =
      (.errorResp { status := 401, rpcCode := e.code, message := e.message }, st) := by
  constructor
  · unfold createMcpPostHandler
    rw [hsid]
    dsimp only
    rw [ht]
    dsimp only
    rw [he]
    simp
  · rfl

/-- **C1 witness.** The amended behaviour at a concrete registered
session. -/
theorem post_followup_reuses_transport_witness :
    createMcpPostHandler .partner
      (.ok { token := "fresh-token", method := .apiKey, partnerCode := some "pc" })
      { sessionIdHeader := some "s1", isInitialize := false } "fresh" 99
      { transports := [("s1", 7)], sessionTokens := [("s1", "tokInit")]
        sessionAuthMethods := [("s1", .apiKey)]
        sessionEndpointTypes := [("s1", .partner)] } =
      (.dispatched 7,
        { transports := [("s1", 7)], sessionTokens := [("s1", "tokInit")]
          sessionAuthMethods := [("s1", .apiKey)]
          sessionEndpointTypes := [("s1", .partner)] }) ∧
    createMcpPostHandler .partner
      (.error { code := -32000, message := "Invalid API key" })
      { sessionIdHeader := some "s1", isInitialize := false } "fresh" 99
      { transports := [("s1", 7)], sessionTokens := [("s1", "tokInit")]
        sessionAuthMethods := [("s1", .apiKey)]
        sessionEndpointTypes := [("s1", .partner)] } =
      (.errorResp { status := 401, rpcCode := -32000, message := "Invalid API key" },
        { transports := [("s1", 7)], sessionTokens := [("s1", "tokInit")]
          sessionAuthMethods := [("s1", .apiKey)]
          sessionEndpointTypes := [("s1", .partner)] }) :=
  post_followup_reuses_transport_and_bound_token .partner
    { token := "fresh-token", method := .apiKey, partnerCode := some "pc" }
    { code := -32000, message := "Invalid API key" }
    { sessionIdHeader := some "s1", isInitialize := false } "fresh" 99 7
    { transports := [("s1", 7)], sessionTokens := [("s1", "tokInit")]
      sessionAuthMethods := [("s1", .apiKey)]
      sessionEndpointTypes := [("s1", .partner)] } "s1"
    (by decide) (by decide) (by decide)

/-- **C4.** A request presenting a registered session's id on the
endpoint type other than the one recorded for the session is answered
with the 400 cross-endpoint error (status 400, distinguishable from the
401 authentication error) on all three methods — POST (after successful
authentication), GET, and DELETE — is never dispatched to the session's
transport, and leaves the registries unchanged. -/
theorem cross_endpoint_requests_rejected
    (endpointType other : EndpointType) (a : AuthResult) (req : PostRequest)
    (newSessionId : String) (newTransport transport : Nat) (st : Sessions)
    (sid : String) (closeOk : Bool)
    (hne : other ≠ endpointType)
    (hsid : sidOf req.sessionIdHeader = some sid)
    (ht : regGet st.transports sid = some transport)
    (he : regGet st.sessionEndpointTypes sid = some other) :
    createMcpPostHandler endpointType (.ok a) req newSessionId newTransport st =
      (.errorResp { status := 400, rpcCode := -32000
                    message := crossEndpointMessage (some other) endpointType }, st) ∧
    createMcpGetHandler endpointType req.sessionIdHeader st =
      .errorResp { status := 400, rpcCode := -32000
                   message := crossEndpointMessage (some other) endpointType } ∧
    createMcpDeleteHandler endpointType req.sessionIdHeader closeOk st =
      (.errorResp { status := 400, rpcCode := -32000
                    message := crossEndpointMessage (some other) endpointType }, st) := by
  have hno : some other ≠ some endpointType := by
    simpa using hne
  refine ⟨?_, ?_, ?_⟩
  · unfold createMcpPostHandler
    rw [hsid]
    dsimp only
    rw [ht]
    dsimp only
    rw [he]
    simp [hno]
  · unfold createMcpGetHandler
    rw [hsid]
    dsimp only
    rw [ht]
    dsimp only
    rw [he]
    simp [hno]
  · unfold createMcpDeleteHandler
    rw [hsid]
    dsimp only
    rw [ht]
    dsimp only
    rw [he]
    simp [hno]

/-- **C4 witness.** A partner session accessed through the manager
endpoint, on all three methods. -/
theorem cross_endpoint_requests_rejected_witness :
    createMcpPostHandler .manager
      (.ok { token := "t", method := .bearer, partnerCode := none })
      { sessionIdHeader := some "s1", isInitialize := false } "fresh" 99
      { transports := [("s1", 7)], sessionTokens := [("s1", "tokInit")]
        sessionAuthMethods := [("s1", .apiKey)]
        sessionEndpointTypes := [("s1", .partner)] } =
      (.errorResp { status := 400, rpcCode := -32000
                    message := crossEndpointMessage (some .partner) .manager },
        { transports := [("s1", 7)], sessionTokens := [("s1", "tokInit")]
          sessionAuthMethods := [("s1", .apiKey)]
          sessionEndpointTypes := [("s1", .partner)] }) ∧
    createMcpGetHandler .manager (some "s1")
      { transports := [("s1", 7)], sessionTokens := [("s1", "tokInit")]
        sessionAuthMethods := [("s1", .apiKey)]
        sessionEndpointTypes := [("s1", .partner)] } =
      .errorResp { status := 400, rpcCode := -32000
                   message := crossEndpointMessage (some .partner) .manager } ∧
    createMcpDeleteHandler .manager (some "s1") true
      { transports := [("s1", 7)], sessionTokens := [("s1", "tokInit")]
        sessionAuthMethods := [("s1", .apiKey)]
        sessionEndpointTypes := [("s1", .partner)] } =
      (.errorResp { status := 400, rpcCode := -32000
                    message := crossEndpointMessage (some .partner) .manager },
        { transports := [("s1", 7)], sessionTokens := [("s1", "tokInit")]
          sessionAuthMethods := [("s1", .apiKey)]
          sessionEndpointTypes := [("s1", .partner)] }) :=
  cross_endpoint_requests_rejected .manager .partner
    { token := "t", method := .bearer, partnerCode := none }
    { sessionIdHeader := some "s1", isInitialize := false } "fresh" 99 7
    { transports := [("s1", 7)], sessionTokens := [("s1", "tokInit")]
      sessionAuthMethods := [("s1", .apiKey)]
      sessionEndpointTypes := [("s1", .partner)] } "s1" true
    (by decide) (by decide) (by decide) (by decide)

end FD

namespace FD

/-- **C5.** For a session id not present in the registries: a POST
request bearing it (in particular a non-initialize one) is answered with
the 400 invalid-session error and no session is created (the registries
are returned unchanged); a DELETE bearing it is answered with the 404
not-found error and no crash; and after a successful DELETE of any
session, a further DELETE of the same id again answers 404, so
termination is idempotent in effect. -/
theorem unknown_session_rejected_not_created
    (endpointType : EndpointType) (a : AuthResult) (req : PostRequest)
    (newSessionId : String) (newTransport : Nat) (st st2 : Sessions)
    (sid : String) (closeOk closeOk2 : Bool)
    (hsid : sidOf req.sessionIdHeader = some sid)
    (ht : regGet st.transports sid = none) :
    createMcpPostHandler endpointType (.ok a) req newSessionId newTransport st =
      (.errorResp { status := 400, rpcCode := -32000
                    message := "Invalid or expired session" }, st) ∧
    createMcpDeleteHandler endpointType req.sessionIdHeader closeOk st =
      (.errorResp { status := 404, rpcCode := -32000
                    message := "Session not found" }, st) ∧
    createMcpDeleteHandler endpointType req.sessionIdHeader closeOk2
        (removeSession st2 sid) =
      (.errorResp { status := 404, rpcCode := -32000
                    message := "Session not found" }, removeSession st2 sid) := by
  refine ⟨?_, ?_, ?_⟩
  · unfold createMcpPostHandler
    rw [hsid]
    dsimp only
    rw [ht]
  · unfold createMcpDeleteHandler
    rw [hsid]
    dsimp only
    rw [ht]
  · unfold createMcpDeleteHandler
    rw [hsid]
    dsimp only
    have : regGet (removeSession st2 sid).transports sid = none := by
      simpa [removeSession] using regGet_regDel_self st2.transports sid
    rw [this]

/-- **C5 witness.** The unknown-session behaviour at a concrete id, with
the repeated-DELETE case starting from a registry that held the
session. -/
theorem unknown_session_rejected_not_created_witness :
    createMcpPostHandler .partner
      (.ok { token := "t", method := .apiKey, partnerCode := some "pc" })
      { sessionIdHeader := some "ghost", isInitialize := false } "fresh" 99
      { transports := [], sessionTokens := [], sessionAuthMethods := []
        sessionEndpointTypes := [] } =
      (.errorResp { status := 400, rpcCode := -32000
                    message := "Invalid or expired session" },
        { transports := [], sessionTokens := [], sessionAuthMethods := []
          sessionEndpointTypes := [] }) ∧
    createMcpDeleteHandler .partner (some "ghost") true
      { transports := [], sessionTokens := [], sessionAuthMethods := []
        sessionEndpointTypes := [] } =
      (.errorResp { status := 404, rpcCode := -32000
                    message := "Session not found" },
        { transports := [], sessionTokens := [], sessionAuthMethods := []
          sessionEndpointTypes := [] }) ∧
    createMcpDeleteHandler .partner (some "ghost") true
        (removeSession
          { transports := [("ghost", 7)], sessionTokens := [("ghost", "tok")]
            sessionAuthMethods := [("ghost", .apiKey)]
            sessionEndpointTypes := [("ghost", .partner)] } "ghost") =
      (.errorResp { status := 404, rpcCode := -32000
                    message := "Session not found" },
        removeSession
          { transports := [("ghost", 7)], sessionTokens := [("ghost", "tok")]
            sessionAuthMethods := [("ghost", .apiKey)]
            sessionEndpointTypes := [("ghost", .partner)] } "ghost") :=
  unknown_session_rejected_not_created .partner
    { token := "t", method := .apiKey, partnerCode := some "pc" }
    { sessionIdHeader := some "ghost", isInitialize := false } "fresh" 99
    { transports := [], sessionTokens := [], sessionAuthMethods := []
      sessionEndpointTypes := [] }
    { transports := [("ghost", 7)], sessionTokens := [("ghost", "tok")]
      sessionAuthMethods := [("ghost", .apiKey)]
      sessionEndpointTypes := [("ghost", .partner)] } "ghost" true true
    (by decide) (by decide)

/-- **C10.** Starting from registries whose four key sets agree, every
state-touching operation — the POST handler (which registers a new
session in all four registries on initialize), the DELETE handler (which
deletes from all four or none), the transport close callback, and the
SIGINT shutdown cleanup (which skips all four deletes for a session
whose close threw) — returns registries whose four key sets again
agree. -/
theorem session_registries_stay_aligned
    (endpointType : EndpointType) (authResult : AuthOutcome)
    (req : PostRequest) (newSessionId : String) (newTransport : Nat)
    (closeOk : Bool) (closedSid : Option String) (closeOkF : String → Bool)
    (st : Sessions) (h : st.Aligned) :
    (createMcpPostHandler endpointType authResult req newSessionId
      newTransport st).2.Aligned ∧
    (createMcpDeleteHandler endpointType req.sessionIdHeader closeOk st).2.Aligned ∧
    (oncloseCallback closedSid st).Aligned ∧
    (sigintCleanup closeOkF st).Aligned := by
  refine ⟨?_, ?_, ?_, ?_⟩
  · unfold createMcpPostHandler
    repeat' split
    all_goals
      first
        | exact h
        | exact aligned_registerSession st newSessionId newTransport _ _
            endpointType h
  · unfold createMcpDeleteHandler
    repeat' split
    all_goals
      first
        | exact h
        | exact aligned_removeSession st _ h
  · unfold oncloseCallback
    split
    · exact aligned_removeSession st _ h
    · exact h
  · exact aligned_foldl_remove _ closeOkF st h

/-- **C10 witness.** Alignment preservation at a concrete initialize
request on empty registries. -/
theorem session_registries_stay_aligned_witness :
    (createMcpPostHandler .partner
      (.ok { token := "t", method := .apiKey, partnerCode := some "pc" })
      { sessionIdHeader := none, isInitialize := true } "s-new" 3
      { transports := [], sessionTokens := [], sessionAuthMethods := []
        sessionEndpointTypes := [] }).2.Aligned ∧
    (createMcpDeleteHandler .partner none true
      { transports := [], sessionTokens := [], sessionAuthMethods := []
        sessionEndpointTypes := [] }).2.Aligned ∧
    (oncloseCallback (some "s-new")
      { transports := [], sessionTokens := [], sessionAuthMethods := []
        sessionEndpointTypes := [] }).Aligned ∧
    (sigintCleanup (fun _ => true)
      { transports := [], sessionTokens := [], sessionAuthMethods := []
        sessionEndpointTypes := [] }).Aligned :=
  session_registries_stay_aligned .partner
    (.ok { token := "t", method := .apiKey, partnerCode := some "pc" })
    { sessionIdHeader := none, isInitialize := true } "s-new" 3 true
    (some "s-new") (fun _ => true)
    { transports := [], sessionTokens := [], sessionAuthMethods := []
      sessionEndpointTypes := [] }
    ⟨rfl, rfl, rfl⟩

end FD

namespace FD

/-- **C6.** When startup authentication succeeds, every stdin chunk that
arrived before authentication completed is delivered into the attached
transport's input handling exactly once, in original arrival order, and
ahead of the chunks that arrive after attachment — the transport sees
exactly the sequence it would have seen had every chunk arrived after
attachment, with nothing dropped or duplicated. -/
theorem stdin_buffer_replayed_in_order
    (apiKey : String) (upstream : OAuthResp)
    (preAuthChunks postAttachChunks : List String)
    (tokenResult : TokenExchangeResult)
    (hk : apiKey ≠ "")
    (hx : stdioExchangeApiKeyForToken apiKey upstream = some tokenResult) :
    stdioMain (some apiKey) upstream preAuthChunks postAttachChunks =
      { exitCode := none, delivered := preAuthChunks ++ postAttachChunks } := by
  unfold stdioMain
  dsimp only
  rw [if_neg hk, hx]
  simp [foldl_snoc_eq]

/-- **C6 witness.** A concrete run with two buffered chunks and one
post-attachment chunk. -/
theorem stdin_buffer_replayed_in_order_witness :
    stdioMain (some "partner_acme_x:secret") (.ok "tok" 3600)
      ["chunk-a", "chunk-b"] ["chunk-c"] =
      { exitCode := none
        delivered := ["chunk-a", "chunk-b"] ++ ["chunk-c"] } :=
  stdin_buffer_replayed_in_order "partner_acme_x:secret" (.ok "tok" 3600)
    ["chunk-a", "chunk-b"] ["chunk-c"]
    { token := "tok", partnerCode := "acme", expiresIn := 3600 }
    (by decide) (by decide)

/-- **C7.** When the mandatory `FD_API_KEY` is absent (or empty, which
JavaScript treats as absent) or the startup exchange yields no token,
the stdio server terminates with exit status 1 and no buffered stdin
chunk is ever delivered to a protocol transport. -/
theorem stdio_auth_failure_exits_nonzero_discards_input
    (apiKey : String) (upstream : OAuthResp)
    (preAuthChunks postAttachChunks : List String)
    (hfail : stdioExchangeApiKeyForToken apiKey upstream = none) :
    stdioMain none upstream preAuthChunks postAttachChunks =
      { exitCode := some 1, delivered := [] } ∧
    stdioMain (some "") upstream preAuthChunks postAttachChunks =
      { exitCode := some 1, delivered := [] } ∧
    stdioMain (some apiKey) upstream preAuthChunks postAttachChunks =
      { exitCode := some 1, delivered := [] } := by
  refine ⟨rfl, rfl, ?_⟩
  unfold stdioMain
  dsimp only
  by_cases hk : apiKey = ""
  · rw [if_pos hk]
  · rw [if_neg hk, hfail]

/-- **C7 witness.** A malformed key (no colon) fails the exchange: the
process exits 1 and the buffered chunk is discarded. -/
theorem stdio_auth_failure_witness :
    stdioMain none (.ok "tok" 3600) ["chunk-a"] [] =
      { exitCode := some 1, delivered := [] } ∧
    stdioMain (some "") (.ok "tok" 3600) ["chunk-a"] [] =
      { exitCode := some 1, delivered := [] } ∧
    stdioMain (some "no-colon-key") (.ok "tok" 3600) ["chunk-a"] [] =
      { exitCode := some 1, delivered := [] } :=
  stdio_auth_failure_exits_nonzero_discards_input "no-colon-key"
    (.ok "tok" 3600) ["chunk-a"] [] (by decide)

/-- **C8.** When the upstream GraphQL response carries a non-empty
`errors` array, the tool handler returns a normal tool result — a text
content block carrying the first error's message with the `isError` flag
set — instead of raising a transport-level or JSON-RPC protocol error
(the handler's try/catch never lets an upstream error escape as an
exception). -/
theorem graphql_errors_returned_as_tool_result
    (resultPath : String) (response : GraphQLResponse)
    (firstMessage : String) (laterMessages : List String)
    (herr : response.errors = some (firstMessage :: laterMessages)) :
    createToolHandler resultPath (.ok response) =
      { content := .plain ("Error: " ++ firstMessage), isError := true } := by
  unfold createToolHandler
  dsimp only
  rw [herr]

/-- **C8 witness.** A response with two upstream errors becomes an
`isError` tool result carrying the first message. -/
theorem graphql_errors_returned_as_tool_result_witness :
    createToolHandler "data.organizations"
      (.ok { data := none, errors := some ["boom", "second"] }) =
      { content := .plain ("Error: " ++ "boom"), isError := true } :=
  graphql_errors_returned_as_tool_result "data.organizations"
    { data := none, errors := some ["boom", "second"] } "boom" ["second"] rfl

end FD

namespace FD

/-! ## Lemmas for the argument-shaping claim -/

theorem hasKey_nil (k : String) : hasKey [] k = false := rfl

theorem hasKey_cons (k : String) (v : JSVal)
    (rest : List (String × JSVal)) (x : String) :
    hasKey ((k, v) :: rest) x = (decide (k = x) || hasKey rest x) := by
  simp [hasKey]

theorem hasKey_append (l1 l2 : List (String × JSVal)) (k : String) :
    hasKey (l1 ++ l2) k = (hasKey l1 k || hasKey l2 k) := by
  simp [hasKey, List.any_append]

theorem hasKey_if_single (b : Bool) (k : String) (v : JSVal) (x : String) :
    hasKey (if b then [(k, v)] else []) x = (b && decide (k = x)) := by
  cases b <;> simp [hasKey]

theorem getField_obj_cons (k : String) (v : JSVal)
    (rest : List (String × JSVal)) (x : String) :
    getField (.obj ((k, v) :: rest)) x =
      if k = x then v else getField (.obj rest) x := by
  by_cases hk : k = x <;> simp [getField, List.find?, hk]

theorem getField_obj_append (l1 l2 : List (String × JSVal)) (k : String) :
    getField (.obj (l1 ++ l2)) k =
      if hasKey l1 k then getField (.obj l1) k else getField (.obj l2) k := by
  induction l1 with
  | nil => simp [hasKey, getField]
  | cons p rest ih =>
    obtain ⟨k', v'⟩ := p
    by_cases hk : k' = k
    · simp [hasKey_cons, hk, getField_obj_cons]
    · simp [hasKey_cons, hk, getField_obj_cons, ih]

theorem getField_if_segment (b : Bool) (k : String) (v : JSVal)
    (rest : List (String × JSVal)) (x : String) (hne : (k = x) = False) :
    getField (.obj ((if b then [(k, v)] else []) ++ rest)) x =
      getField (.obj rest) x := by
  cases b <;> simp [getField_obj_append, hasKey_if_single, hne, getField_obj_cons]

theorem stripUndefObj_append (l1 l2 : List (String × JSVal)) :
    stripUndefObj (l1 ++ l2) = stripUndefObj l1 ++ stripUndefObj l2 := by
  induction l1 with
  | nil => simp [stripUndefObj]
  | cons p rest ih =>
    obtain ⟨k, v⟩ := p
    by_cases hv : isUndef v = true <;> simp [stripUndefObj, hv, ih]

theorem stripUndefObj_if_single (b : Bool) (k : String) (v : JSVal) :
    stripUndefObj (if b then [(k, v)] else []) =
      if b && !isUndef v then [(k, stripUndef v)] else [] := by
  cases b <;> cases hv : isUndef v <;> simp [stripUndefObj, hv]

theorem hasKey_stripUndefObj_if_single (b : Bool) (k : String) (v : JSVal)
    (x : String) :
    hasKey (stripUndefObj (if b then [(k, v)] else [])) x =
      ((b && !isUndef v) && decide (k = x)) := by
  rw [stripUndefObj_if_single]
  cases b <;> cases hv : isUndef v <;> simp [hv, hasKey]

end FD

namespace FD

theorem transformArguments_create_individual (args : List (String × JSVal)) :
    transformArguments "create_individual" args =
      .obj [("input", JSVal.obj (
        [("name", JSVal.obj
          ([("firstName", argGet args "firstName"),
            ("lastName", argGet args "lastName")] ++
           (if truthy (argGet args "middleName") then
             [("middleName", argGet args "middleName")] else [])))] ++
        (if truthy (argGet args "email") then [("email", argGet args "email")] else []) ++
        (if truthy (argGet args "phoneNumber") then
          [("phoneNumber", argGet args "phoneNumber")] else []) ++
        (if truthy (argGet args "dateOfBirth") then
          [("dateOfBirth", argGet args "dateOfBirth")] else []) ++
        (if truthy (argGet args "tin") then [("tin", argGet args "tin")] else []) ++
        (if truthy (argGet args "language") then
          [("language", argGet args "language")] else []) ++
        (if truthy (argGet args "externalUserId") then
          [("externalUserId", argGet args "externalUserId")] else []) ++
        (if truthy (argGet args "addressLine1") || truthy (argGet args "city") ||
            truthy (argGet args "state") || truthy (argGet args "zip") then
          [("address", JSVal.obj
            ([("addressLine1", argGet args "addressLine1")] ++
             (if truthy (argGet args "addressLine2") then
               [("addressLine2", argGet args "addressLine2")] else []) ++
             [("city", argGet args "city"),
              ("state", argGet args "state"),
              ("zip", argGet args "zip"),
              ("country",
                if truthy (argGet args "country") then argGet args "country"
                else .str "US")]))]
         else [])))] := rfl

theorem transformArguments_create_organization (args : List (String × JSVal)) :
    transformArguments "create_organization" args =
      .obj [("input", JSVal.obj [("name", argGet args "name")])] := rfl

theorem transformArguments_create_benefit (args : List (String × JSVal)) :
    transformArguments "create_benefit" args =
      .obj [("input", JSVal.obj
        ([("benefitsProgramId", argGet args "benefitsProgramId"),
          ("templateId", argGet args "templateId"),
          ("name", argGet args "name"),
          ("startDate", argGet args "startDate")] ++
         (if truthy (argGet args "endDate") then
           [("endDate", argGet args "endDate")] else [])))] := rfl

end FD

namespace FD

theorem truthy_undef : truthy .undef = false := rfl

theorem isUndef_undef : isUndef .undef = true := rfl

theorem isUndef_obj (fields : List (String × JSVal)) :
    isUndef (.obj fields) = false := rfl

theorem hasKey_if_single_prop (c : Prop) [Decidable c] (k : String)
    (v : JSVal) (x : String) :
    hasKey (if c then [(k, v)] else []) x = (decide c && decide (k = x)) := by
  by_cases hc : c <;> simp [hc, hasKey]

theorem hasKey_stripUndefObj_cons (k : String) (v : JSVal)
    (rest : List (String × JSVal)) (x : String) :
    hasKey (stripUndefObj ((k, v) :: rest)) x =
      ((!isUndef v) && decide (k = x) || hasKey (stripUndefObj rest) x) := by
  cases hv : isUndef v <;> simp [stripUndefObj, hv, hasKey_cons]

theorem hasKey_stripUndefObj_if_single_prop (c : Prop) [Decidable c]
    (k : String) (v : JSVal) (x : String) :
    hasKey (stripUndefObj (if c then [(k, v)] else [])) x =
      (decide c && ((!isUndef v) && decide (k = x))) := by
  by_cases hc : c <;> cases hv : isUndef v <;>
    simp [hc, hv, stripUndefObj, hasKey]

theorem stripUndefObj_nil : stripUndefObj [] = [] := rfl

theorem getField_stripUndefObj_cons (k : String) (v : JSVal)
    (rest : List (String × JSVal)) (x : String) :
    getField (.obj (stripUndefObj ((k, v) :: rest))) x =
      if isUndef v = false ∧ k = x then stripUndef v
      else getField (.obj (stripUndefObj rest)) x := by
  cases hv : isUndef v <;> by_cases hk : k = x <;>
    simp [stripUndefObj, hv, hk, getField_obj_cons]

theorem getField_obj_stripUndefObj_if_single (c : Prop) [Decidable c]
    (k : String) (v : JSVal) (x : String) :
    getField (.obj (stripUndefObj (if c then [(k, v)] else []))) x =
      if c ∧ isUndef v = false ∧ k = x then stripUndef v else .undef := by
  by_cases hc : c <;> cases hv : isUndef v <;> by_cases hk : k = x <;>
    simp [hc, hv, hk, stripUndefObj, getField]

/-- **C9.** For the create-style mutation tools the flat tool arguments
are reassembled into the nested GraphQL `input` object: for
`create_individual` a `name` object is built from
`firstName`/`lastName`/`middleName` and an `address` object from
`addressLine1`/`addressLine2`/`city`/`state`/`zip`/`country`; every
optional field absent from the input is omitted from the `input` object
that is serialized into the GraphQL variables — never included, in
particular never with a `null` value: absent top-level optionals and an
absent `middleName` are never inserted at all, no `address` object is
built when no address field is given, and the
`addressLine1`/`addressLine2` keys of a partially given address are
absent from the serialized form (`stripUndef`, the shape
`JSON.stringify` sends).  `create_benefit` omits an absent `endDate`,
and `create_organization` builds its nested `input.name`. -/
theorem create_mutations_shape_nested_input
    (args : List (String × JSVal)) (f : String)
    (hf : f ∈ ["email", "phoneNumber", "dateOfBirth", "tin", "language",
               "externalUserId"])
    (habs : argGet args f = .undef) :
    getField (getField (getField (transformArguments "create_individual" args)
      "input") "name") "firstName" = argGet args "firstName" ∧
    getField (getField (getField (transformArguments "create_individual" args)
      "input") "name") "lastName" = argGet args "lastName" ∧
    (truthy (argGet args "middleName") = true →
      getField (getField (getField (transformArguments "create_individual" args)
        "input") "name") "middleName" = argGet args "middleName") ∧
    (argGet args "middleName" = .undef →
      objHas (getField (getField (transformArguments "create_individual" args)
        "input") "name") "middleName" = false) ∧
    objHas (getField (transformArguments "create_individual" args) "input") f
      = false ∧
    objHas (getField (stripUndef (transformArguments "create_individual" args))
      "input") f = false ∧
    ((truthy (argGet args "addressLine1") || truthy (argGet args "city") ||
        truthy (argGet args "state") || truthy (argGet args "zip")) = true →
      getField (getField (getField (transformArguments "create_individual" args)
        "input") "address") "addressLine1" = argGet args "addressLine1" ∧
      getField (getField (getField (transformArguments "create_individual" args)
        "input") "address") "city" = argGet args "city" ∧
      getField (getField (getField (transformArguments "create_individual" args)
        "input") "address") "state" = argGet args "state" ∧
      getField (getField (getField (transformArguments "create_individual" args)
        "input") "address") "zip" = argGet args "zip") ∧
    (argGet args "addressLine1" = .undef → argGet args "city" = .undef →
      argGet args "state" = .undef → argGet args "zip" = .undef →
      objHas (getField (transformArguments "create_individual" args) "input")
        "address" = false) ∧
    (argGet args "addressLine1" = .undef →
      objHas (getField (getField
        (stripUndef (transformArguments "create_individual" args)) "input")
        "address") "addressLine1" = false) ∧
    (argGet args "addressLine2" = .undef →
      objHas (getField (getField
        (stripUndef (transformArguments "create_individual" args)) "input")
        "address") "addressLine2" = false) ∧
    (argGet args "endDate" = .undef →
      objHas (getField (transformArguments "create_benefit" args) "input")
        "endDate" = false) ∧
    transformArguments "create_organization" args =
      .obj [("input", JSVal.obj [("name", argGet args "name")])] := by
  rw [transformArguments_create_individual args,
    transformArguments_create_benefit args]
  refine ⟨?_, ?_, ?_, ?_, ?_, ?_, ?_, ?_, ?_, ?_, ?_,
    transformArguments_create_organization args⟩
  · simp [getField_obj_cons, getField_obj_append, hasKey_if_single_prop]
  · simp [getField_obj_cons, getField_obj_append, hasKey_if_single_prop]
  · intro hm
    simp [hm, getField_obj_cons, getField_obj_append, hasKey_if_single_prop]
  · intro hm
    simp [hm, truthy_undef, objHas, getField_obj_cons, getField_obj_append,
      hasKey_append, hasKey_if_single_prop, hasKey_cons, hasKey_nil]
  · simp only [List.mem_cons, List.not_mem_nil, or_false] at hf
    rcases hf with rfl | rfl | rfl | rfl | rfl | rfl <;>
      simp [habs, truthy_undef, objHas, getField_obj_cons, getField_obj_append,
        hasKey_append, hasKey_if_single_prop, hasKey_cons, hasKey_nil]
  · simp only [List.mem_cons, List.not_mem_nil, or_false] at hf
    rcases hf with rfl | rfl | rfl | rfl | rfl | rfl <;>
      simp [habs, truthy_undef, isUndef_undef, isUndef_obj, objHas,
        getField_obj_cons, getField_obj_append, stripUndef, stripUndefObj,
        stripUndefObj_append, hasKey_append, hasKey_if_single_prop,
        hasKey_stripUndefObj_if_single_prop, hasKey_stripUndefObj_cons,
        hasKey_cons, hasKey_nil]
  · intro hcond
    refine ⟨?_, ?_, ?_, ?_⟩ <;>
      simp [hcond, getField_obj_cons, getField_obj_append, hasKey_append,
        hasKey_if_single_prop, hasKey_cons, hasKey_nil]
  · intro h1 h2 h3 h4
    simp [h1, h2, h3, h4, truthy_undef, objHas, getField_obj_cons,
      getField_obj_append, hasKey_append, hasKey_if_single_prop, hasKey_cons,
      hasKey_nil]
  · intro h1
    cases hc2 : truthy (argGet args "city") <;>
      cases hc3 : truthy (argGet args "state") <;>
        cases hc4 : truthy (argGet args "zip") <;>
          simp [h1, hc2, hc3, hc4, truthy_undef, isUndef_undef, isUndef_obj,
            objHas, stripUndef, stripUndefObj_nil, stripUndefObj_append,
            getField_stripUndefObj_cons, getField_obj_stripUndefObj_if_single,
            getField_obj_cons, getField_obj_append, hasKey_append,
            hasKey_if_single_prop, hasKey_stripUndefObj_if_single_prop,
            hasKey_stripUndefObj_cons, hasKey_cons, hasKey_nil]
  · intro h2
    cases hc1 : truthy (argGet args "addressLine1") <;>
      cases hc2 : truthy (argGet args "city") <;>
        cases hc3 : truthy (argGet args "state") <;>
          cases hc4 : truthy (argGet args "zip") <;>
            simp [h2, hc1, hc2, hc3, hc4, truthy_undef, isUndef_undef,
              isUndef_obj, objHas, stripUndef, stripUndefObj_nil,
              stripUndefObj_append, getField_stripUndefObj_cons,
              getField_obj_stripUndefObj_if_single, getField_obj_cons,
              getField_obj_append, hasKey_append, hasKey_if_single_prop,
              hasKey_stripUndefObj_if_single_prop, hasKey_stripUndefObj_cons,
              hasKey_cons, hasKey_nil]
  · intro he
    simp [he, truthy_undef, objHas, getField_obj_cons, getField_obj_append,
      hasKey_append, hasKey_if_single_prop, hasKey_cons, hasKey_nil]

end FD

namespace FD

/-- Concrete `create_individual` arguments used by the C9 witness: the
required names, a partial address (no `addressLine1`), and no optional
top-level fields. -/
def c9Args : List (String × JSVal) :=
  [("firstName", .str "Ada"), ("lastName", .str "Lovelace"),
   ("city", .str "Austin"), ("state", .str "TX"), ("zip", .str "78701"),
   ("name", .str "Acme"), ("benefitsProgramId", .str "bp1"),
   ("templateId", .str "t1"), ("startDate", .str "2026-01-01")]

/-- **C9 witness.** The shaping law at `c9Args` with the absent optional
field `email`. -/
theorem create_mutations_shape_nested_input_witness :

    getField (getField (getField (transformArguments "create_individual" c9Args)
      "input") "name") "firstName" = argGet c9Args "firstName" ∧
    getField (getField (getField (transformArguments "create_individual" c9Args)
      "input") "name") "lastName" = argGet c9Args "lastName" ∧
    (truthy (argGet c9Args "middleName") = true →
      getField (getField (getField (transformArguments "create_individual" c9Args)
        "input") "name") "middleName" = argGet c9Args "middleName") ∧
    (argGet c9Args "middleName" = .undef →
      objHas (getField (getField (transformArguments "create_individual" c9Args)
        "input") "name") "middleName" = false) ∧
    objHas (getField (transformArguments "create_individual" c9Args) "input") "email"
      = false ∧
    objHas (getField (stripUndef (transformArguments "create_individual" c9Args))
      "input") "email" = false ∧
    ((truthy (argGet c9Args "addressLine1") || truthy (argGet c9Args "city") ||
        truthy (argGet c9Args "state") || truthy (argGet c9Args "zip")) = true →
      getField (getField (getField (transformArguments "create_individual" c9Args)
        "input") "address") "addressLine1" = argGet c9Args "addressLine1" ∧
      getField (getField (getField (transformArguments "create_individual" c9Args)
        "input") "address") "city" = argGet c9Args "city" ∧
      getField (getField (getField (transformArguments "create_individual" c9Args)
        "input") "address") "state" = argGet c9Args "state" ∧
      getField (getField (getField (transformArguments "create_individual" c9Args)
        "input") "address") "zip" = argGet c9Args "zip") ∧
    (argGet c9Args "addressLine1" = .undef → argGet c9Args "city" = .undef →
      argGet c9Args "state" = .undef → argGet c9Args "zip" = .undef →
      objHas (getField (transformArguments "create_individual" c9Args) "input")
        "address" = false) ∧
    (argGet c9Args "addressLine1" = .undef →
      objHas (getField (getField
        (stripUndef (transformArguments "create_individual" c9Args)) "input")
        "address") "addressLine1" = false) ∧
    (argGet c9Args "addressLine2" = .undef →
      objHas (getField (getField
        (stripUndef (transformArguments "create_individual" c9Args)) "input")
        "address") "addressLine2" = false) ∧
    (argGet c9Args "endDate" = .undef →
      objHas (getField (transformArguments "create_benefit" c9Args) "input")
        "endDate" = false) ∧
    transformArguments "create_organization" c9Args =
      .obj [("input", JSVal.obj [("name", argGet c9Args "name")])] :=
  create_mutations_shape_nested_input c9Args "email" (by decide) rfl

end FD
